import Mathlib

/-!
Verification of the AstroShield client core against its specification.

The JavaScript source is shallowly embedded over the real numbers:
JS numbers become `ℝ`, absent / `undefined` / `null` record fields become
`Option`, and JS `NaN` is outside the model (every modelled value is a
real number; the `Number(u) || 0` coercions in the source are modelled by
`Option.getD 0`, with `none` standing for an absent or non-numeric field).

Embedded source files:
* `static/js/shared/simulationUtils.js` — `OFFLINE_BASELINE` constants,
  `computeApproximateMass`, `estimateDeflectionOutcome` (the orbital-lab
  estimator with the full path deformation);
* `static/js/DefenseMode.js` — the defense-mode state machine;
* `static/js/OrbitalViz.js` — the camera rig gesture/clamp logic and the
  `renderPaths` scene-graph accounting.
-/

noncomputable section

namespace AstroShield

/-! ## Constants (simulationUtils.js / OrbitalViz.js) -/

def TNT_JOULES : ℝ := 4.184e15

def ASTEROID_DENSITY : ℝ := 3000

/-- `AU_KM` in `estimateDeflectionOutcome` (149_597_870.7). -/
def AU_KM : ℝ := 149597870.7

/-! ## JS `Math` functions over the reals -/

/-- JS `Math.atan2(y, x)`: the argument of the complex number `x + i·y`,
with `atan2(0, 0) = 0`, matching `Complex.arg 0 = 0`. -/
def atan2 (y x : ℝ) : ℝ := Complex.arg ⟨x, y⟩

/-- JS `Math.hypot(x, y)`. -/
def hypot (x y : ℝ) : ℝ := Real.sqrt (x ^ 2 + y ^ 2)

/-- JS `Math.cbrt`. -/
def cbrt (x : ℝ) : ℝ := if x < 0 then -((-x) ^ ((3:ℝ)⁻¹)) else x ^ ((3:ℝ)⁻¹)

/-- JS `Math.log10`. -/
def log10 (x : ℝ) : ℝ := Real.logb 10 x

/-- `THREE.MathUtils.clamp(value, min, max) = Math.max(min, Math.min(max, value))`. -/
def mathClamp (value lo hi : ℝ) : ℝ := max lo (min hi value)

/-! ## Path points

A raw path point as found in a Scenario JSON value: the point itself may
be `null`/absent, and each coordinate may be absent or non-numeric. -/

structure RawPoint where
  x : Option ℝ
  y : Option ℝ
  z : Option ℝ

/-- The JS coercion `Number(u) || 0` applied to a possibly-missing field. -/
def coerceNum (o : Option ℝ) : ℝ := o.getD 0

/-- A fully numeric 3D point, as produced by the estimator's path maps. -/
structure Point3 where
  x : ℝ
  y : ℝ
  z : ℝ

/-- Coercion of a raw path entry to a numeric point:
`if (!point) return {x:0,y:0,z:0}` and `Number(point.x) || 0` for each coordinate. -/
def coercePoint : Option RawPoint → Point3
  | none => ⟨0, 0, 0⟩
  | some p => ⟨coerceNum p.x, coerceNum p.y, coerceNum p.z⟩

/-- Re-embedding of a numeric point as a raw path entry (a present point
with all three coordinates present). -/
def Point3.toRaw (p : Point3) : Option RawPoint := some ⟨some p.x, some p.y, some p.z⟩

/-! ## The Scenario data model -/

/-- The `inputs` block of a Scenario, and equally the shape of the
estimator's `payload` argument (numeric fields only; the `asteroid_id`
string is irrelevant to every claim and omitted).  `none` models an
absent key.  A wholly absent payload object behaves exactly like the
all-`none` payload (JS `payload?.f` is `undefined` and `{...undefined}`
adds nothing), so the estimator below takes the record directly. -/
structure Inputs where
  diameter_m : Option ℝ
  velocity_kms : Option ℝ
  deflection_delta_v : Option ℝ
  impact_lat : Option ℝ
  impact_lon : Option ℝ

abbrev Payload := Inputs

/-- The `energy` block. -/
structure Energy where
  mass_kg : Option ℝ
  effective_velocity_ms : Option ℝ
  energy_joules : Option ℝ
  energy_mt : Option ℝ

/-- The `impact_effects` block (the two fields the estimator writes). -/
structure ImpactEffects where
  crater_diameter_km : Option ℝ
  seismic_magnitude : Option ℝ

/-- The `orbital_solution` block. -/
structure OrbitalSolution where
  baseline_path : Option (List (Option RawPoint))
  deflected_path : Option (List (Option RawPoint))
  baseline_moid_km : Option ℝ
  deflected_moid_km : Option ℝ
  moid_change_km : Option ℝ

/-- A Scenario.  The opaque pass-through blocks (`neo_reference`,
`environment`) are deep-copied unchanged by the estimator and carry no
information relevant to any claim, so they are omitted from the model. -/
structure Scenario where
  inputs : Option Inputs
  energy : Option Energy
  impact_effects : Option ImpactEffects
  orbital_solution : Option OrbitalSolution

/-- `clone.inputs = { ...template.inputs, ...payload }`: a payload key
that is present wins; an absent payload key keeps the template's value;
an absent template `inputs` block contributes nothing. -/
def mergeInputs (ti : Option Inputs) (p : Payload) : Inputs :=
  let t := ti.getD ⟨none, none, none, none, none⟩
  { diameter_m := p.diameter_m <|> t.diameter_m
    velocity_kms := p.velocity_kms <|> t.velocity_kms
    deflection_delta_v := p.deflection_delta_v <|> t.deflection_delta_v
    impact_lat := p.impact_lat <|> t.impact_lat
    impact_lon := p.impact_lon <|> t.impact_lon }

/-! ## simulationUtils.js: computeApproximateMass -/

/-- `computeApproximateMass(diameterMeters, templateMassKg)`.
`if (templateMassKg) return templateMassKg` is a JS truthiness test:
an absent or zero template mass falls through to the sphere estimate
`(4/3)·π·(max(diameterMeters || 0, 0)/2)³ · ASTEROID_DENSITY`. -/
def computeApproximateMass (diameterMeters templateMassKg : Option ℝ) : ℝ :=
  let radius := max (coerceNum diameterMeters) 0 / 2
  let volume := 4 / 3 * Real.pi * radius ^ 3
  match templateMassKg with
  | some m => if m = 0 then volume * ASTEROID_DENSITY else m
  | none => volume * ASTEROID_DENSITY

/-! ## simulationUtils.js: estimateDeflectionOutcome

The local bindings of the source function are factored into named
definitions, in source order, so that the claims can speak about them. -/

/-- `payload?.velocity_kms ?? template.inputs?.velocity_kms ?? 0`. -/
def resolveVelocityKms (t : Scenario) (p : Payload) : ℝ :=
  (p.velocity_kms <|> t.inputs.bind Inputs.velocity_kms).getD 0

/-- `payload?.deflection_delta_v ?? 0` — the template's
`inputs.deflection_delta_v` is never consulted. -/
def resolveDeltaV (p : Payload) : ℝ := p.deflection_delta_v.getD 0

/-- `computeApproximateMass(payload?.diameter_m, template.energy?.mass_kg)` —
the payload's diameter only, never the merged diameter. -/
def massUsed (t : Scenario) (p : Payload) : ℝ :=
  computeApproximateMass p.diameter_m (t.energy.bind Energy.mass_kg)

/-- `Math.max(velocityKms * 1000 - deltaV, 1)`. -/
def effectiveVelocityMs (t : Scenario) (p : Payload) : ℝ :=
  max (resolveVelocityKms t p * 1000 - resolveDeltaV p) 1

/-- `0.5 * massKg * effectiveVelocityMs ** 2`. -/
def energyJoules (t : Scenario) (p : Payload) : ℝ :=
  0.5 * massUsed t p * effectiveVelocityMs t p ^ 2

/-- `energyJoules / TNT_JOULES`. -/
def energyMt (t : Scenario) (p : Payload) : ℝ := energyJoules t p / TNT_JOULES

/-- `Math.max(0, 0.11 * Math.cbrt(Math.max(energyMt, 0)))`. -/
def craterKm (t : Scenario) (p : Payload) : ℝ :=
  max 0 (0.11 * cbrt (max (energyMt t p) 0))

/-- `Math.max(0, 0.67 * Math.log10(Math.max(energyJoules, 1)) - 5.8)`. -/
def seismicMagnitude (t : Scenario) (p : Payload) : ℝ :=
  max 0 (0.67 * log10 (max (energyJoules t p) 1) - 5.8)

/-- One step of `approximateMoidKm`: the absolute deviation of a point's
distance from the origin from one astronomical unit.  Null points are
skipped by the source's `if (!rawPoint) return;`, hence the `Option` at
the call sites below. -/
def pointDiff (p : RawPoint) : ℝ :=
  |Real.sqrt (coerceNum p.x ^ 2 + coerceNum p.y ^ 2 + coerceNum p.z ^ 2) - AU_KM|

/-- `approximateMoidKm(points)`: 0 on an empty array, otherwise the
minimum of `pointDiff` over the non-null points (0 again if every point
is null, since the running minimum stays infinite). -/
def approximateMoidKm (points : List (Option RawPoint)) : ℝ :=
  match points.filterMap (fun o => o.map pointDiff) with
  | [] => 0
  | d :: ds => ds.foldl min d

/-- `template.orbital_solution?.baseline_path || clone.orbital_solution.baseline_path || []`
(the clone is a deep copy of the template, and any array — even an empty
one — is truthy, so this is just the field with default `[]`). -/
def templateBaselinePath (os : OrbitalSolution) : List (Option RawPoint) :=
  os.baseline_path.getD []

/-- `template.orbital_solution?.deflected_path || clone.orbital_solution.deflected_path || templateBaseline`. -/
def templateDeflectedPath (os : OrbitalSolution) : List (Option RawPoint) :=
  os.deflected_path.getD (templateBaselinePath os)

/-- `templateDeflected.length || templateBaseline.length || 1`
(number truthiness: a zero length falls through). -/
def pathLengthOf (os : OrbitalSolution) : ℕ :=
  if (templateDeflectedPath os).length ≠ 0 then (templateDeflectedPath os).length
  else if (templateBaselinePath os).length ≠ 0 then (templateBaselinePath os).length
  else 1

/-- `velocityKms > 0 ? deltaV / (velocityKms * 1000) : 0`. -/
def velocityRatio (t : Scenario) (p : Payload) : ℝ :=
  if 0 < resolveVelocityKms t p then resolveDeltaV p / (resolveVelocityKms t p * 1000)
  else 0

/-- `Math.min(Math.max(velocityRatio, -0.8), 0.8)`. -/
def adjustmentFactor (t : Scenario) (p : Payload) : ℝ :=
  min (max (velocityRatio t p) (-0.8)) 0.8

/-- The body of `templateDeflected.map((point, index) => ...)`. -/
def deflectPoint (factor : ℝ) (pathLength : ℕ) (index : ℕ) (point : Option RawPoint) :
    Point3 :=
  match point with
  | none => ⟨0, 0, 0⟩
  | some q =>
    let x := coerceNum q.x
    let y := coerceNum q.y
    let z := coerceNum q.z
    let angle := atan2 y x
    let radius := hypot x y
    let scale := 1 + factor * 0.32
    let phaseShift := factor * 0.45
    let wave := Real.sin ((index : ℝ) / (pathLength : ℝ) * Real.pi * 2 + factor * 1.6)
    let verticalOffset := factor * 2400000 * wave
    ⟨radius * scale * Real.cos (angle + phaseShift),
     radius * scale * Real.sin (angle + phaseShift),
     z * (1 - factor * 0.2) + verticalOffset⟩

/-- `Array.prototype.map` with the element index, starting at `i`. -/
def mapIdxFrom {α β : Type} (f : ℕ → α → β) : ℕ → List α → List β
  | _, [] => []
  | i, a :: as => f i a :: mapIdxFrom f (i + 1) as

/-- The freshly adjusted `deflectedPath`. -/
def deflectedPathOf (t : Scenario) (p : Payload) (os : OrbitalSolution) : List Point3 :=
  mapIdxFrom (deflectPoint (adjustmentFactor t p) (pathLengthOf os)) 0
    (templateDeflectedPath os)

/-- The coerced `baselinePath`. -/
def baselinePathOf (os : OrbitalSolution) : List Point3 :=
  (templateBaselinePath os).map coercePoint

/-- `clone.orbital_solution.baseline_moid_km ?? approximateMoidKm(baselinePath)`. -/
def baselineMoidOf (os : OrbitalSolution) : ℝ :=
  os.baseline_moid_km.getD (approximateMoidKm ((baselinePathOf os).map Point3.toRaw))

/-- `approximateMoidKm(deflectedPath)`. -/
def deflectedMoidOf (t : Scenario) (p : Payload) (os : OrbitalSolution) : ℝ :=
  approximateMoidKm ((deflectedPathOf t p os).map Point3.toRaw)

/-- `estimateDeflectionOutcome(template, payload)` for a present template
(the source returns `null` for an absent template; every claim supplies
one).  The deep clone of the source is value semantics here. -/
def estimateDeflectionOutcome (template : Scenario) (payload : Payload) : Scenario :=
  { inputs := some (mergeInputs template.inputs payload)
    energy := some
      { mass_kg := some (massUsed template payload)
        effective_velocity_ms := some (effectiveVelocityMs template payload)
        energy_joules := some (energyJoules template payload)
        energy_mt := some (energyMt template payload) }
    impact_effects := some
      { crater_diameter_km := some (craterKm template payload)
        seismic_magnitude := some (seismicMagnitude template payload) }
    orbital_solution := template.orbital_solution.map (fun os =>
      { baseline_path := some ((baselinePathOf os).map Point3.toRaw)
        deflected_path := some ((deflectedPathOf template payload os).map Point3.toRaw)
        baseline_moid_km := some (baselineMoidOf os)
        deflected_moid_km := some (max 0 (deflectedMoidOf template payload os))
        moid_change_km := some (baselineMoidOf os - deflectedMoidOf template payload os) }) }

/-! ## DefenseMode.js: the defense-mode state machine

The controller state is `{active, baselineCraterKm, countdownTween}`;
the tween handle is modelled by its remaining time (`none` = killed).
UI side effects (countdown text, message block, lock/unlock callbacks)
are out of the model except for the resolution message that a step
surfaces, which is the observable the claims speak about. -/

namespace DefenseMode

/-- The one resolution message `_resolve` can surface. -/
inductive Resolution
  | success
  | failureInsufficient
  | failureTimeout

/-- Mutable instance state of the `DefenseMode` class. -/
structure State where
  active : Bool
  baselineCraterKm : Option ℝ
  countdownTween : Option ℝ

/-- The fixed high-threat scenario returned by `start()`. -/
structure FixedScenario where
  diameter_m : ℝ
  velocity_kms : ℝ
  impact_lat : ℝ
  impact_lon : ℝ

/-- `this.explicitScenario` (never mutated by the class). -/
def explicitScenario : FixedScenario :=
  { diameter_m := 460, velocity_kms := 28, impact_lat := 34.05, impact_lon := -118.25 }

/-- `_resolve(success, fromTimeout)`: disarm, kill the countdown tween,
and surface exactly one resolution message. -/
def resolve (s : State) (success : Bool) (fromTimeout : Bool) : State × Option Resolution :=
  ({ s with active := false, countdownTween := none },
   some (if success then .success
         else if fromTimeout then .failureTimeout else .failureInsufficient))

/-- `start()`: idempotent re-entry guard, then arm, clear the baseline and
begin the 10-unit countdown; both branches return `explicitScenario`. -/
def start (s : State) : State × FixedScenario :=
  if s.active then (s, explicitScenario)
  else ({ active := true, baselineCraterKm := none, countdownTween := some 10 },
        explicitScenario)

/-- `cancel()`: unconditionally disarm, clear the baseline, kill the tween. -/
def cancel (_s : State) : State :=
  { active := false, baselineCraterKm := none, countdownTween := none }

/-- `recordBaseline(craterKm)`. -/
def recordBaseline (s : State) (craterKm : ℝ) : State :=
  { s with baselineCraterKm := some craterKm }

/-- `evaluateAttempt({craterKm, deltaV})`.  The JS boolean return value is
`true` exactly when the surfaced resolution is `success`. -/
def evaluateAttempt (s : State) (craterKm deltaV : ℝ) : State × Option Resolution :=
  match s.active, s.baselineCraterKm with
  | false, _ => (s, none)
  | true, none => (s, none)
  | true, some b =>
    if deltaV ≤ 0 then (s, none)
    else
      let reduction := 1 - craterKm / b
      resolve s (decide (0.5 ≤ reduction)) false

/-- `handleTimeout()` — the countdown tween's `onComplete`.  The tween is
killed by `_resolve` and `cancel` before `active` is cleared, so a
completion can only be delivered while the tween handle is live; the
method additionally guards on `active`. -/
def handleTimeout (s : State) : State × Option Resolution :=
  if s.active then resolve s false true else (s, none)

/-- External events driving the controller. -/
inductive Event
  | start
  | cancel
  | recordBaseline (craterKm : ℝ)
  | evaluateAttempt (craterKm deltaV : ℝ)
  | timeout

/-- One event step, paired with the resolution it surfaces (if any). -/
def step (s : State) : Event → State × Option Resolution
  | .start => ((start s).1, none)
  | .cancel => (cancel s, none)
  | .recordBaseline c => (recordBaseline s c, none)
  | .evaluateAttempt c dv => evaluateAttempt s c dv
  | .timeout => handleTimeout s

/-- Run a list of events, collecting the surfaced resolutions. -/
def run (s : State) : List Event → State × List (Option Resolution)
  | [] => (s, [])
  | e :: es =>
    let step1 := step s e
    let rest := run step1.1 es
    (rest.1, step1.2 :: rest.2)

end DefenseMode

/-! ## OrbitalViz.js: camera rig -/

namespace OrbitalViz

def MIN_POLAR_ANGLE : ℝ := 0.15

def MAX_POLAR_ANGLE : ℝ := Real.pi - 0.15

def MIN_RADIUS : ℝ := 3

def MAX_RADIUS : ℝ := 28

def DRAG_SENSITIVITY : ℝ := 0.0065

def ZOOM_SENSITIVITY : ℝ := 0.18

/-- `this.cameraRig.spherical`: radius, polar angle `phi`, azimuth `theta`. -/
structure CameraRig where
  radius : ℝ
  phi : ℝ
  theta : ℝ

/-- `new THREE.Spherical(11, Math.PI / 2.35, Math.PI / 8)`. -/
def initialCameraRig : CameraRig :=
  { radius := 11, phi := Real.pi / 2.35, theta := Real.pi / 8 }

/-- `_handlePointerMove` while a drag is armed (the un-armed branch leaves
the rig untouched): `theta -= deltaX * DRAG_SENSITIVITY;
phi -= deltaY * DRAG_SENSITIVITY`. -/
def handlePointerMove (r : CameraRig) (deltaX deltaY : ℝ) : CameraRig :=
  { r with theta := r.theta - deltaX * DRAG_SENSITIVITY,
           phi := r.phi - deltaY * DRAG_SENSITIVITY }

/-- `_handleWheel`: `delta = deltaY > 0 ? 1 : -1;
radius *= Math.exp(delta * ZOOM_SENSITIVITY * 0.12)`. -/
def handleWheel (r : CameraRig) (deltaY : ℝ) : CameraRig :=
  { r with radius :=
      r.radius * Real.exp ((if 0 < deltaY then 1 else -1) * ZOOM_SENSITIVITY * 0.12) }

/-- A pointer-drag or wheel gesture. -/
inductive Gesture
  | pointerMove (deltaX deltaY : ℝ)
  | wheel (deltaY : ℝ)

def applyGesture (r : CameraRig) : Gesture → CameraRig
  | .pointerMove dx dy => handlePointerMove r dx dy
  | .wheel dy => handleWheel r dy

def applyGestures (r : CameraRig) (gs : List Gesture) : CameraRig :=
  gs.foldl applyGesture r

/-- `_updateCameraFromSpherical`: clamp `phi` and `radius` before the
camera position is set from the spherical coordinates. -/
def updateCameraFromSpherical (r : CameraRig) : CameraRig :=
  { r with phi := mathClamp r.phi MIN_POLAR_ANGLE MAX_POLAR_ANGLE,
           radius := mathClamp r.radius MIN_RADIUS MAX_RADIUS }

/-! ## OrbitalViz.js: renderPaths scene accounting

The scene-graph bookkeeping relevant to the resource-leak claim: which of
the three estimator-drawn objects currently exist, how many of each kind
the scene holds, and running counts of `scene.add` and `_disposeObject`
calls that actually disposed an object. -/

/-- Scene and counter state of an `OrbitalViz` instance. -/
structure VizState where
  baselineOrbit : Bool
  deflectedOrbit : Bool
  asteroidMarker : Bool
  sceneBaseline : ℕ
  sceneDeflected : ℕ
  sceneMarker : ℕ
  baselineAdds : ℕ
  baselineDisposes : ℕ
  deflectedAdds : ℕ
  deflectedDisposes : ℕ
  markerAdds : ℕ
  markerDisposes : ℕ

/-- State after construction: nothing drawn yet, all counters zero. -/
def initialVizState : VizState :=
  { baselineOrbit := false, deflectedOrbit := false, asteroidMarker := false
    sceneBaseline := 0, sceneDeflected := 0, sceneMarker := 0
    baselineAdds := 0, baselineDisposes := 0
    deflectedAdds := 0, deflectedDisposes := 0
    markerAdds := 0, markerDisposes := 0 }

/-- `renderPaths({ baseline_path, deflected_path })`.
`if (!baseline_path || !deflected_path) return;` — only an absent path
short-circuits (a JS array, even an empty one, is truthy).  Otherwise the
three previous objects are disposed (each `_disposeObject` is a no-op on
`null`), the two replacement orbit lines are built and added, and a
marker is added exactly when the deflected path is non-empty
(`if (deflectedVectors.length)`). -/
def renderPaths (s : VizState)
    (baseline_path deflected_path : Option (List (Option RawPoint))) : VizState :=
  match baseline_path, deflected_path with
  | some _, some dp =>
    let s1 : VizState :=
      { s with
        baselineDisposes := s.baselineDisposes + (if s.baselineOrbit then 1 else 0)
        sceneBaseline := s.sceneBaseline - (if s.baselineOrbit then 1 else 0)
        deflectedDisposes := s.deflectedDisposes + (if s.deflectedOrbit then 1 else 0)
        sceneDeflected := s.sceneDeflected - (if s.deflectedOrbit then 1 else 0)
        markerDisposes := s.markerDisposes + (if s.asteroidMarker then 1 else 0)
        sceneMarker := s.sceneMarker - (if s.asteroidMarker then 1 else 0)
        baselineOrbit := false, deflectedOrbit := false, asteroidMarker := false }
    let s2 : VizState :=
      { s1 with
        baselineOrbit := true, baselineAdds := s1.baselineAdds + 1
        sceneBaseline := s1.sceneBaseline + 1
        deflectedOrbit := true, deflectedAdds := s1.deflectedAdds + 1
        sceneDeflected := s1.sceneDeflected + 1 }
    if dp.length ≠ 0 then
      { s2 with asteroidMarker := true, markerAdds := s2.markerAdds + 1
                sceneMarker := s2.sceneMarker + 1 }
    else s2
  | _, _ => s

/-- A `renderPaths` argument pair. -/
structure RenderCall where
  baseline_path : Option (List (Option RawPoint))
  deflected_path : Option (List (Option RawPoint))

def runRender (s : VizState) (calls : List RenderCall) : VizState :=
  calls.foldl (fun s c => renderPaths s c.baseline_path c.deflected_path) s

/-- A call that passes the presence guard. -/
def RenderCall.effective (c : RenderCall) : Prop :=
  c.baseline_path.isSome ∧ c.deflected_path.isSome

/-- The scene invariant after at least one effective `renderPaths` call:
exactly one baseline orbit line, one deflected orbit line and one marker
in the scene, and every object kind has one more addition than disposal. -/
def drawn (s : VizState) : Prop :=
  s.baselineOrbit = true ∧ s.deflectedOrbit = true ∧ s.asteroidMarker = true ∧
  s.sceneBaseline = 1 ∧ s.sceneDeflected = 1 ∧ s.sceneMarker = 1 ∧
  s.baselineAdds = s.baselineDisposes + 1 ∧ s.deflectedAdds = s.deflectedDisposes + 1 ∧
  s.markerAdds = s.markerDisposes + 1

end OrbitalViz

/-! ## Helper lemmas -/

/-- Polar reconstruction: the estimator's `radius * cos(angle)` recovers the
`x` coordinate (also at the origin, where JS `atan2(0,0) = 0`). -/
lemma hypot_mul_cos_atan2 (x y : ℝ) : hypot x y * Real.cos (atan2 y x) = x := by
  by_cases h : (⟨x, y⟩ : ℂ) = 0
  · obtain ⟨hx, hy⟩ := Complex.ext_iff.mp h
    simp only [Complex.zero_re, Complex.zero_im] at hx hy
    subst hx; subst hy
    simp [hypot, atan2]
  · have habs : Complex.abs ⟨x, y⟩ = hypot x y := by
      rw [Complex.abs_apply, Complex.normSq_mk]
      unfold hypot
      ring_nf
    have hne : hypot x y ≠ 0 := habs ▸ Complex.abs.ne_zero h
    rw [atan2, Complex.cos_arg h, habs]
    show hypot x y * ((⟨x, y⟩ : ℂ).re / hypot x y) = x
    rw [mul_comm, div_mul_cancel₀ _ hne]

/-- Polar reconstruction for the `y` coordinate. -/
lemma hypot_mul_sin_atan2 (x y : ℝ) : hypot x y * Real.sin (atan2 y x) = y := by
  by_cases h : (⟨x, y⟩ : ℂ) = 0
  · obtain ⟨hx, hy⟩ := Complex.ext_iff.mp h
    simp only [Complex.zero_re, Complex.zero_im] at hx hy
    subst hx; subst hy
    simp [hypot, atan2]
  · have habs : Complex.abs ⟨x, y⟩ = hypot x y := by
      rw [Complex.abs_apply, Complex.normSq_mk]
      unfold hypot
      ring_nf
    have hne : hypot x y ≠ 0 := habs ▸ Complex.abs.ne_zero h
    rw [atan2, Complex.sin_arg, habs]
    show hypot x y * ((⟨x, y⟩ : ℂ).im / hypot x y) = y
    rw [mul_comm, div_mul_cancel₀ _ hne]

/-- `cbrt` is monotone on the nonnegative reals (the only region the
estimator applies it to, thanks to the `max(·, 0)` guard). -/
lemma cbrt_le_cbrt {a b : ℝ} (ha : 0 ≤ a) (hab : a ≤ b) : cbrt a ≤ cbrt b := by
  unfold cbrt
  rw [if_neg (not_lt.mpr ha), if_neg (not_lt.mpr (ha.trans hab))]
  exact Real.rpow_le_rpow ha hab (by norm_num)

lemma mathClamp_le {v lo hi : ℝ} (h : lo ≤ hi) : mathClamp v lo hi ≤ hi :=
  max_le h (min_le_left _ _)

lemma le_mathClamp (v lo hi : ℝ) : lo ≤ mathClamp v lo hi := le_max_left _ _

/-- With adjustment factor 0 the per-point deformation collapses to the
plain numeric coercion of the point. -/
lemma deflectPoint_zero (L i : ℕ) (q : Option RawPoint) :
    deflectPoint 0 L i q = coercePoint q := by
  cases q with
  | none => rfl
  | some q =>
    show Point3.mk _ _ _ = _
    unfold coercePoint
    have hc := hypot_mul_cos_atan2 (coerceNum q.x) (coerceNum q.y)
    have hs := hypot_mul_sin_atan2 (coerceNum q.x) (coerceNum q.y)
    simp only [Point3.mk.injEq]
    norm_num
    exact ⟨hc, hs⟩

lemma mapIdxFrom_eq_map {α β : Type} (f : ℕ → α → β) (g : α → β)
    (hf : ∀ i a, f i a = g a) : ∀ (i : ℕ) (l : List α), mapIdxFrom f i l = l.map g := by
  intro i l
  induction l generalizing i with
  | nil => rfl
  | cons a as ih => simp [mapIdxFrom, hf, ih]

lemma option_map_congr {α β : Type} {f g : α → β} (o : Option α)
    (h : ∀ a, f a = g a) : o.map f = o.map g := by
  cases o with
  | none => rfl
  | some a => exact congrArg some (h a)

/-! ## Claims about the deflection estimator -/

/-- C2: the energy and impact-effect formulas of `estimateDeflectionOutcome`.
With `v` the resolved velocity (payload over template, default 0, in km/s),
`dv` the payload delta-v (default 0) and `m` the mass in use, the returned
scenario carries `v_eff = max(v·1000 − dv, 1)`, `E = 0.5·m·v_eff²`,
`E_mt = E / 4.184e15`, `crater = max(0, 0.11·cbrt(max(E_mt, 0)))` and
`seismic = max(0, 0.67·log10(max(E, 1)) − 5.8)`. -/
theorem c2_energy_formulas (t : Scenario) (p : Payload) :
    (estimateDeflectionOutcome t p).energy = some
      { mass_kg := some (massUsed t p)
        effective_velocity_ms := some (max (resolveVelocityKms t p * 1000 - resolveDeltaV p) 1)
        energy_joules := some
          (0.5 * massUsed t p * max (resolveVelocityKms t p * 1000 - resolveDeltaV p) 1 ^ 2)
        energy_mt := some
          (0.5 * massUsed t p * max (resolveVelocityKms t p * 1000 - resolveDeltaV p) 1 ^ 2 /
            TNT_JOULES) } ∧
    (estimateDeflectionOutcome t p).impact_effects = some
      { crater_diameter_km := some (max 0 (0.11 * cbrt (max
          (0.5 * massUsed t p * max (resolveVelocityKms t p * 1000 - resolveDeltaV p) 1 ^ 2 /
            TNT_JOULES) 0)))
        seismic_magnitude := some (max 0 (0.67 * log10 (max
          (0.5 * massUsed t p * max (resolveVelocityKms t p * 1000 - resolveDeltaV p) 1 ^ 2)
          1) - 5.8)) } :=
  ⟨rfl, rfl⟩

/-! ## Claims about the camera rig -/

/-- C7: after any sequence of pointer-drag and wheel gestures, the redraw
clamp puts the polar angle inside the band `[0.15, π − 0.15]` — hence
strictly inside `(0, π)` — and the radius inside `[3, 28]`. -/
theorem c7_camera_clamp (r : OrbitalViz.CameraRig) (gs : List OrbitalViz.Gesture) :
    let r' := OrbitalViz.updateCameraFromSpherical (OrbitalViz.applyGestures r gs)
    (0 < r'.phi ∧ r'.phi < Real.pi) ∧
    (OrbitalViz.MIN_POLAR_ANGLE ≤ r'.phi ∧ r'.phi ≤ OrbitalViz.MAX_POLAR_ANGLE) ∧
    (OrbitalViz.MIN_RADIUS ≤ r'.radius ∧ r'.radius ≤ OrbitalViz.MAX_RADIUS) := by
  intro r'
  have hpi : (3 : ℝ) < Real.pi := Real.pi_gt_three
  have hband : OrbitalViz.MIN_POLAR_ANGLE ≤ OrbitalViz.MAX_POLAR_ANGLE := by
    unfold OrbitalViz.MIN_POLAR_ANGLE OrbitalViz.MAX_POLAR_ANGLE
    linarith
  have h1 : OrbitalViz.MIN_POLAR_ANGLE ≤ r'.phi := le_mathClamp _ _ _
  have h2 : r'.phi ≤ OrbitalViz.MAX_POLAR_ANGLE := mathClamp_le hband
  have h3 : OrbitalViz.MIN_RADIUS ≤ r'.radius := le_mathClamp _ _ _
  have h4 : r'.radius ≤ OrbitalViz.MAX_RADIUS := by
    refine mathClamp_le ?_
    unfold OrbitalViz.MIN_RADIUS OrbitalViz.MAX_RADIUS
    norm_num
  refine ⟨⟨?_, ?_⟩, ⟨h1, h2⟩, h3, h4⟩
  · have : (0 : ℝ) < OrbitalViz.MIN_POLAR_ANGLE := by
      unfold OrbitalViz.MIN_POLAR_ANGLE; norm_num
    linarith
  · have : OrbitalViz.MAX_POLAR_ANGLE < Real.pi := by
      unfold OrbitalViz.MAX_POLAR_ANGLE; linarith
    linarith

/-! ## Claims about the defense-mode controller -/

/-- C9: `start()` on an already-armed session returns the fixed scenario and
leaves the state — including the recorded baseline and the running
countdown tween — completely unchanged. -/
theorem c9_start_idempotent (s : DefenseMode.State) (h : s.active = true) :
    DefenseMode.start s = (s, DefenseMode.explicitScenario) := by
  simp [DefenseMode.start, h]

theorem c9_start_idempotent_witness :
    (DefenseMode.State.active ⟨true, some 1.16, some 3⟩ = true) ∧
    DefenseMode.start ⟨true, some 1.16, some 3⟩ =
      (⟨true, some 1.16, some 3⟩, DefenseMode.explicitScenario) :=
  ⟨rfl, c9_start_idempotent _ rfl⟩

/-- A step of a disarmed controller by any event other than `start` surfaces
no resolution and leaves the controller disarmed. -/
lemma DefenseMode.inactive_step (s : DefenseMode.State) (e : DefenseMode.Event)
    (hs : s.active = false) (he : e ≠ DefenseMode.Event.start) :
    (DefenseMode.step s e).2 = none ∧ ((DefenseMode.step s e).1).active = false := by
  cases e with
  | start => exact absurd rfl he
  | cancel => exact ⟨rfl, rfl⟩
  | recordBaseline c => exact ⟨rfl, hs⟩
  | evaluateAttempt c dv =>
    simp [DefenseMode.step, DefenseMode.evaluateAttempt, hs]
  | timeout =>
    simp [DefenseMode.step, DefenseMode.handleTimeout, hs]

/-- C3: at most one resolution per armed session.  First: any step that
surfaces a resolution leaves the controller disarmed.  Second: `cancel()`
disarms.  Third: from a disarmed state, any event sequence containing no
`start()` surfaces no resolution at all — in particular, after a timeout
failure no success (nor any other resolution) can surface until a fresh
`start()` arms a new session. -/
theorem c3_single_resolution :
    (∀ (s : DefenseMode.State) (e : DefenseMode.Event) (s' : DefenseMode.State)
        (r : DefenseMode.Resolution),
      DefenseMode.step s e = (s', some r) → s'.active = false) ∧
    (∀ s : DefenseMode.State, (DefenseMode.cancel s).active = false) ∧
    (∀ (s : DefenseMode.State) (es : List DefenseMode.Event), s.active = false →
      (∀ e ∈ es, e ≠ DefenseMode.Event.start) →
      ∀ r ∈ (DefenseMode.run s es).2, r = none) := by
  refine ⟨?_, fun _ => rfl, ?_⟩
  · intro s e s' r h
    cases e with
    | start =>
      have : (none : Option DefenseMode.Resolution) = some r := congrArg Prod.snd h
      cases this
    | cancel =>
      have : (none : Option DefenseMode.Resolution) = some r := congrArg Prod.snd h
      cases this
    | recordBaseline c =>
      have : (none : Option DefenseMode.Resolution) = some r := congrArg Prod.snd h
      cases this
    | evaluateAttempt c dv =>
      have h' : DefenseMode.evaluateAttempt s c dv = (s', some r) := h
      unfold DefenseMode.evaluateAttempt at h'
      split at h'
      · injection h' with h1 h2; cases h2
      · injection h' with h1 h2; cases h2
      · split at h'
        · injection h' with h1 h2; cases h2
        · injection h' with h1 h2
          rw [← h1]
    | timeout =>
      have h' : DefenseMode.handleTimeout s = (s', some r) := h
      unfold DefenseMode.handleTimeout at h'
      split at h'
      · injection h' with h1 h2
        rw [← h1]
      · injection h' with h1 h2; cases h2
  · intro s es
    induction es generalizing s with
    | nil => intro _ _ r hr; cases hr
    | cons e es ih =>
      intro hs he r hr
      obtain ⟨h2, h1⟩ := DefenseMode.inactive_step s e hs (he e (by simp))
      rw [DefenseMode.run] at hr
      simp only [List.mem_cons] at hr
      rcases hr with hr | hr
      · rw [hr, h2]
      · exact ih _ h1 (fun e' he' => he e' (by simp [he'])) r hr

theorem c3_single_resolution_witness :
    (DefenseMode.State.active ⟨false, some 1, none⟩ = false) ∧
    (∀ e ∈ [DefenseMode.Event.evaluateAttempt 1 2, DefenseMode.Event.timeout],
      e ≠ DefenseMode.Event.start) ∧
    ∀ r ∈ (DefenseMode.run ⟨false, some 1, none⟩
        [DefenseMode.Event.evaluateAttempt 1 2, DefenseMode.Event.timeout]).2, r = none :=
  ⟨rfl, by simp, c3_single_resolution.2.2 _ _ rfl (by simp)⟩

/-- C5: with the delta-v and all other inputs fixed, a larger payload
velocity never decreases the returned megaton energy or crater diameter.
The hypothesis `0 ≤ massUsed t p` holds for every Scenario of the data
model (the mass is either a derived, physical `mass_kg` or the sphere
estimate, which is nonnegative by construction). -/
theorem c5_velocity_monotone (t : Scenario) (p : Payload) (v1 v2 : ℝ)
    (hm : 0 ≤ massUsed t p) (h : v1 ≤ v2) :
    energyMt t { p with velocity_kms := some v1 } ≤
      energyMt t { p with velocity_kms := some v2 } ∧
    craterKm t { p with velocity_kms := some v1 } ≤
      craterKm t { p with velocity_kms := some v2 } := by
  have hveff : effectiveVelocityMs t { p with velocity_kms := some v1 } ≤
      effectiveVelocityMs t { p with velocity_kms := some v2 } := by
    unfold effectiveVelocityMs
    have hv : ∀ v : ℝ, resolveVelocityKms t { p with velocity_kms := some v } = v :=
      fun _ => rfl
    have hdvp : ∀ v : ℝ,
        resolveDeltaV { p with velocity_kms := some v } = resolveDeltaV p :=
      fun _ => rfl
    rw [hv, hv, hdvp, hdvp]
    exact max_le_max (by linarith) le_rfl
  have hveff0 : (0 : ℝ) ≤ effectiveVelocityMs t { p with velocity_kms := some v1 } :=
    le_trans (by norm_num) (le_max_right _ 1)
  have hE : energyJoules t { p with velocity_kms := some v1 } ≤
      energyJoules t { p with velocity_kms := some v2 } := by
    unfold energyJoules
    have hmass : ∀ v : ℝ, massUsed t { p with velocity_kms := some v } = massUsed t p :=
      fun _ => rfl
    rw [hmass, hmass]
    exact mul_le_mul_of_nonneg_left (pow_le_pow_left₀ hveff0 hveff 2) (by linarith)
  have hMt : energyMt t { p with velocity_kms := some v1 } ≤
      energyMt t { p with velocity_kms := some v2 } := by
    unfold energyMt
    rw [div_eq_mul_inv, div_eq_mul_inv]
    have hT : (0 : ℝ) ≤ TNT_JOULES⁻¹ := by
      unfold TNT_JOULES
      norm_num
    exact mul_le_mul_of_nonneg_right hE hT
  refine ⟨hMt, ?_⟩
  unfold craterKm
  refine max_le_max le_rfl (mul_le_mul_of_nonneg_left ?_ (by norm_num))
  exact cbrt_le_cbrt (le_max_right _ _) (max_le_max hMt le_rfl)

theorem c5_velocity_monotone_witness :
    (0 ≤ massUsed ⟨none, none, none, none⟩ ⟨none, none, none, none, none⟩) ∧
    ((1 : ℝ) ≤ 2) ∧
    energyMt ⟨none, none, none, none⟩
        { diameter_m := none, velocity_kms := some 1, deflection_delta_v := none,
          impact_lat := none, impact_lon := none } ≤
      energyMt ⟨none, none, none, none⟩
        { diameter_m := none, velocity_kms := some 2, deflection_delta_v := none,
          impact_lat := none, impact_lon := none } := by
  have hm : 0 ≤ massUsed ⟨none, none, none, none⟩ ⟨none, none, none, none, none⟩ := by
    unfold massUsed computeApproximateMass coerceNum
    norm_num
  exact ⟨hm, by norm_num,
    (c5_velocity_monotone ⟨none, none, none, none⟩ ⟨none, none, none, none, none⟩ 1 2 hm
      (by norm_num)).1⟩
/-- C6: the adjustment factor always lies in `[−0.8, 0.8]`; for a positive
resolved velocity it is exactly the clamped ratio `dv / (v·1000)`; for a
zero velocity the guarded branch yields 0 (no division by zero occurs);
and whenever the template carries an `orbital_solution`, the returned
`deflected_moid_km` is present and nonnegative. -/
theorem c6_adjustment_factor (t : Scenario) (p : Payload) (os : OrbitalSolution)
    (hos : t.orbital_solution = some os) :
    (-0.8 ≤ adjustmentFactor t p ∧ adjustmentFactor t p ≤ 0.8) ∧
    (0 < resolveVelocityKms t p →
      adjustmentFactor t p =
        min (max (resolveDeltaV p / (resolveVelocityKms t p * 1000)) (-0.8)) 0.8) ∧
    (resolveVelocityKms t p = 0 → adjustmentFactor t p = 0) ∧
    (∃ os' d, (estimateDeflectionOutcome t p).orbital_solution = some os' ∧
      os'.deflected_moid_km = some d ∧ 0 ≤ d) := by
  refine ⟨⟨le_min (le_max_right _ _) (by norm_num), min_le_right _ _⟩, ?_, ?_, ?_⟩
  · intro hv
    unfold adjustmentFactor velocityRatio
    rw [if_pos hv]
  · intro hv
    unfold adjustmentFactor velocityRatio
    rw [hv]
    norm_num
  · refine ⟨{ baseline_path := some ((baselinePathOf os).map Point3.toRaw)
              deflected_path := some ((deflectedPathOf t p os).map Point3.toRaw)
              baseline_moid_km := some (baselineMoidOf os)
              deflected_moid_km := some (max 0 (deflectedMoidOf t p os))
              moid_change_km := some (baselineMoidOf os - deflectedMoidOf t p os) },
            max 0 (deflectedMoidOf t p os), ?_, rfl, le_max_left _ _⟩
    show (estimateDeflectionOutcome t p).orbital_solution = _
    unfold estimateDeflectionOutcome
    rw [hos]
    rfl

theorem c6_adjustment_factor_witness :
    ((⟨none, none, none, some ⟨none, none, none, none, none⟩⟩ : Scenario).orbital_solution =
      some ⟨none, none, none, none, none⟩) ∧
    (∃ os' d,
      (estimateDeflectionOutcome ⟨none, none, none, some ⟨none, none, none, none, none⟩⟩
          ⟨none, none, none, none, none⟩).orbital_solution = some os' ∧
      os'.deflected_moid_km = some d ∧ 0 ≤ d) :=
  ⟨rfl, (c6_adjustment_factor _ ⟨none, none, none, none, none⟩ _ rfl).2.2.2⟩

/-- C10: when the payload omits `deflection_delta_v`, the estimator takes
the delta-v as 0 — ignoring a non-zero `template.inputs.deflection_delta_v` —
so its energy, impact-effect and orbital outputs coincide with those for an
explicit zero delta-v payload, while the returned merged inputs block still
carries the template's non-zero delta-v. -/
theorem c10_template_delta_v_ignored (t : Scenario) (p : Payload) (ins : Inputs) (dv0 : ℝ)
    (hins : t.inputs = some ins) (hdv0 : ins.deflection_delta_v = some dv0)
    (hnz : dv0 ≠ 0) (hp : p.deflection_delta_v = none) :
    (estimateDeflectionOutcome t p).energy =
      (estimateDeflectionOutcome t { p with deflection_delta_v := some 0 }).energy ∧
    (estimateDeflectionOutcome t p).impact_effects =
      (estimateDeflectionOutcome t { p with deflection_delta_v := some 0 }).impact_effects ∧
    (estimateDeflectionOutcome t p).orbital_solution =
      (estimateDeflectionOutcome t { p with deflection_delta_v := some 0 }).orbital_solution ∧
    (∃ ins', (estimateDeflectionOutcome t p).inputs = some ins' ∧
      ins'.deflection_delta_v = some dv0) := by
  have hdv : resolveDeltaV p = resolveDeltaV { p with deflection_delta_v := some 0 } := by
    unfold resolveDeltaV
    rw [hp]
    rfl
  have hveff : effectiveVelocityMs t p =
      effectiveVelocityMs t { p with deflection_delta_v := some 0 } := by
    unfold effectiveVelocityMs
    rw [hdv]
    rfl
  have hE : energyJoules t p =
      energyJoules t { p with deflection_delta_v := some 0 } := by
    unfold energyJoules
    rw [hveff]
    rfl
  have hMt : energyMt t p = energyMt t { p with deflection_delta_v := some 0 } := by
    unfold energyMt
    rw [hE]
  have hfac : adjustmentFactor t p =
      adjustmentFactor t { p with deflection_delta_v := some 0 } := by
    unfold adjustmentFactor velocityRatio
    rw [hdv]
    rfl
  refine ⟨?_, ?_, ?_, ?_⟩
  · show some _ = some _
    rw [hveff, hE, hMt]
    rfl
  · show some _ = some _
    unfold craterKm seismicMagnitude
    rw [hMt, hE]
  · show t.orbital_solution.map _ = t.orbital_solution.map _
    refine option_map_congr _ (fun os => ?_)
    have hdp : deflectedPathOf t p os =
        deflectedPathOf t { p with deflection_delta_v := some 0 } os := by
      unfold deflectedPathOf
      rw [hfac]
    have hmoid : deflectedMoidOf t p os =
        deflectedMoidOf t { p with deflection_delta_v := some 0 } os := by
      unfold deflectedMoidOf
      rw [hdp]
    show OrbitalSolution.mk _ _ _ _ _ = OrbitalSolution.mk _ _ _ _ _
    rw [hdp, hmoid]
  · refine ⟨mergeInputs t.inputs p, rfl, ?_⟩
    show (mergeInputs t.inputs p).deflection_delta_v = some dv0
    unfold mergeInputs
    rw [hins, hp]
    simpa using hdv0

theorem c10_template_delta_v_ignored_witness :
    ((⟨some ⟨none, none, some 500, none, none⟩, none, none, none⟩ : Scenario).inputs =
      some ⟨none, none, some 500, none, none⟩) ∧
    ((⟨none, none, some 500, none, none⟩ : Inputs).deflection_delta_v = some 500) ∧
    ((500 : ℝ) ≠ 0) ∧
    (∃ ins',
      (estimateDeflectionOutcome ⟨some ⟨none, none, some 500, none, none⟩, none, none, none⟩
          ⟨none, none, none, none, none⟩).inputs = some ins' ∧
      ins'.deflection_delta_v = some 500) :=
  ⟨rfl, rfl, by norm_num,
    (c10_template_delta_v_ignored _ ⟨none, none, none, none, none⟩ _ 500 rfl rfl
      (by norm_num) rfl).2.2.2⟩
/-- C4 counterexample: a template with no `energy.mass_kg` whose `inputs`
carry `diameter_m = 210`, estimated with an empty payload.  The merged
inputs still show `diameter_m = 210`, yet the mass the estimator uses is
0 — not the sphere mass of a 210 m body at density 3000 kg/m³ — because
`computeApproximateMass` reads the diameter from the payload alone. -/
theorem c4_counterexample :
    ((⟨some ⟨some 210, none, none, none, none⟩, none, none, none⟩ : Scenario).energy =
      none) ∧
    (∃ ins',
      (estimateDeflectionOutcome ⟨some ⟨some 210, none, none, none, none⟩, none, none, none⟩
          ⟨none, none, none, none, none⟩).inputs = some ins' ∧
      ins'.diameter_m = some 210) ∧
    (∃ en,
      (estimateDeflectionOutcome ⟨some ⟨some 210, none, none, none, none⟩, none, none, none⟩
          ⟨none, none, none, none, none⟩).energy = some en ∧
      en.mass_kg = some (massUsed ⟨some ⟨some 210, none, none, none, none⟩, none, none, none⟩
        ⟨none, none, none, none, none⟩)) ∧
    massUsed (⟨some ⟨some 210, none, none, none, none⟩, none, none, none⟩ : Scenario)
      ⟨none, none, none, none, none⟩ = 0 ∧
    (0 : ℝ) ≠ 4 / 3 * Real.pi * (210 / 2) ^ 3 * ASTEROID_DENSITY := by
  refine ⟨rfl, ⟨_, rfl, rfl⟩, ⟨_, rfl, rfl⟩, ?_, ?_⟩
  · unfold massUsed computeApproximateMass coerceNum
    norm_num
  · have hpi : (0 : ℝ) < Real.pi := Real.pi_pos
    have : (0 : ℝ) < 4 / 3 * Real.pi * (210 / 2) ^ 3 * ASTEROID_DENSITY := by
      unfold ASTEROID_DENSITY
      positivity
    exact this.ne

/-- C4 as amended: the mass used by `estimateDeflectionOutcome` equals
`template.energy.mass_kg` when that field is present and non-zero (JS
truthiness); otherwise it is the density-3000 sphere mass computed from
the payload's own `diameter_m` (0 when the payload omits it, clamped
below at 0) — not from the merged effective diameter. -/
theorem c4_mass_used (t : Scenario) (p : Payload) :
    (∀ m, t.energy.bind Energy.mass_kg = some m → m ≠ 0 → massUsed t p = m) ∧
    (t.energy.bind Energy.mass_kg = none ∨ t.energy.bind Energy.mass_kg = some 0 →
      massUsed t p =
        4 / 3 * Real.pi * (max (p.diameter_m.getD 0) 0 / 2) ^ 3 * ASTEROID_DENSITY) ∧
    (∃ en, (estimateDeflectionOutcome t p).energy = some en ∧
      en.mass_kg = some (massUsed t p)) := by
  refine ⟨?_, ?_, ⟨_, rfl, rfl⟩⟩
  · intro m hm hm0
    unfold massUsed computeApproximateMass
    rw [hm]
    simp [hm0]
  · intro hcase
    unfold massUsed computeApproximateMass coerceNum
    rcases hcase with hc | hc <;> rw [hc] <;> simp

theorem c4_mass_used_witness :
    ((⟨none, some ⟨some 5, none, none, none⟩, none, none⟩ : Scenario).energy.bind
      Energy.mass_kg = some 5) ∧
    ((5 : ℝ) ≠ 0) ∧
    massUsed ⟨none, some ⟨some 5, none, none, none⟩, none, none⟩
      ⟨none, none, none, none, none⟩ = 5 :=
  ⟨rfl, by norm_num,
    (c4_mass_used ⟨none, some ⟨some 5, none, none, none⟩, none, none⟩
      ⟨none, none, none, none, none⟩).1 5 rfl (by norm_num)⟩
lemma toRaw_coercePoint {q : Option RawPoint}
    (h : ∃ x y z, q = some ⟨some x, some y, some z⟩) :
    Point3.toRaw (coercePoint q) = q := by
  obtain ⟨x, y, z, rfl⟩ := h
  rfl

/-- C1 counterexample: a template whose `orbital_solution` stores
`baseline_moid_km = 5` and a one-point deflected path at the origin,
estimated with `deflection_delta_v = 0`.  The returned `deflected_moid_km`
is the geometric approximation recomputed from the (reproduced) deflected
path — one AU, since the path point sits at the origin — while
`baseline_moid_km` passes through as 5, so the two are not equal. -/
theorem c1_counterexample :
    (estimateDeflectionOutcome
        ⟨none, none, none,
          some ⟨some [], some [some ⟨some 0, some 0, some 0⟩], some 5, none, none⟩⟩
        ⟨none, none, some 0, none, none⟩).orbital_solution.bind
      OrbitalSolution.deflected_moid_km ≠
    (estimateDeflectionOutcome
        ⟨none, none, none,
          some ⟨some [], some [some ⟨some 0, some 0, some 0⟩], some 5, none, none⟩⟩
        ⟨none, none, some 0, none, none⟩).orbital_solution.bind
      OrbitalSolution.baseline_moid_km := by
  have hfac : adjustmentFactor
      ⟨none, none, none,
        some ⟨some [], some [some ⟨some 0, some 0, some 0⟩], some 5, none, none⟩⟩
      ⟨none, none, some 0, none, none⟩ = 0 := by
    unfold adjustmentFactor velocityRatio resolveVelocityKms resolveDeltaV
    norm_num
  have hmoid : deflectedMoidOf
      ⟨none, none, none,
        some ⟨some [], some [some ⟨some 0, some 0, some 0⟩], some 5, none, none⟩⟩
      ⟨none, none, some 0, none, none⟩
      ⟨some [], some [some ⟨some 0, some 0, some 0⟩], some 5, none, none⟩ = AU_KM := by
    unfold deflectedMoidOf deflectedPathOf
    rw [hfac]
    rw [mapIdxFrom_eq_map _ coercePoint (fun i a => deflectPoint_zero _ i a)]
    show approximateMoidKm _ = AU_KM
    unfold approximateMoidKm templateDeflectedPath
    simp [coercePoint, coerceNum, Point3.toRaw, pointDiff]
    unfold AU_KM
    norm_num
  show some _ ≠ some _
  intro hcontra
  have h1 : max 0 (deflectedMoidOf
      ⟨none, none, none,
        some ⟨some [], some [some ⟨some 0, some 0, some 0⟩], some 5, none, none⟩⟩
      ⟨none, none, some 0, none, none⟩
      ⟨some [], some [some ⟨some 0, some 0, some 0⟩], some 5, none, none⟩) =
      baselineMoidOf ⟨some [], some [some ⟨some 0, some 0, some 0⟩], some 5, none, none⟩ :=
    Option.some.injEq _ _ ▸ hcontra
  rw [hmoid] at h1
  have h2 : baselineMoidOf
      (⟨some [], some [some ⟨some 0, some 0, some 0⟩], some 5, none, none⟩ :
        OrbitalSolution) = 5 := rfl
  rw [h2, max_eq_right (by unfold AU_KM; norm_num)] at h1
  revert h1
  unfold AU_KM
  norm_num
lemma map_toRaw_coerce (dp : List (Option RawPoint))
    (hwf : ∀ q ∈ dp, ∃ x y z, q = some ⟨some x, some y, some z⟩) :
    (dp.map coercePoint).map Point3.toRaw = dp := by
  induction dp with
  | nil => rfl
  | cons q qs ih =>
    simp only [List.map_cons]
    rw [toRaw_coercePoint (hwf q (by simp)), ih (fun q' hq' => hwf q' (by simp [hq']))]

/-- C1 as amended: for a zero payload delta-v the adjustment factor is 0
(radius scale 1, rotation 0, zero out-of-plane perturbation) and the
returned deflected path reproduces the template's deflected path exactly
(the template's points being present with numeric coordinates, per the
data model); but `deflected_moid_km` is the clamped MOID approximation
recomputed from that same path, while `baseline_moid_km` passes the
template's stored value through — the two coincide only when the stored
baseline MOID happens to equal the approximation of the deflected path. -/
theorem c1_zero_delta_v (t : Scenario) (p : Payload) (os : OrbitalSolution)
    (dp : List (Option RawPoint)) (hos : t.orbital_solution = some os)
    (hdp : os.deflected_path = some dp) (hne : dp ≠ [])
    (hwf : ∀ q ∈ dp, ∃ x y z, q = some ⟨some x, some y, some z⟩)
    (hdv : p.deflection_delta_v = some 0) :
    adjustmentFactor t p = 0 ∧
    ∃ os', (estimateDeflectionOutcome t p).orbital_solution = some os' ∧
      os'.deflected_path = some dp ∧
      os'.deflected_moid_km = some (max 0 (approximateMoidKm dp)) ∧
      os'.baseline_moid_km = some (baselineMoidOf os) := by
  have hdv0 : resolveDeltaV p = 0 := by
    unfold resolveDeltaV
    rw [hdv]
    rfl
  have hfac : adjustmentFactor t p = 0 := by
    unfold adjustmentFactor velocityRatio
    rw [hdv0]
    by_cases hv : 0 < resolveVelocityKms t p
    · rw [if_pos hv, zero_div]
      norm_num
    · rw [if_neg hv]
      norm_num
  have htd : templateDeflectedPath os = dp := by
    unfold templateDeflectedPath
    rw [hdp]
    rfl
  have hpath : deflectedPathOf t p os = dp.map coercePoint := by
    unfold deflectedPathOf
    rw [hfac, htd]
    exact mapIdxFrom_eq_map _ coercePoint (fun i a => deflectPoint_zero _ i a) 0 dp
  have hcomb : (deflectedPathOf t p os).map Point3.toRaw = dp := by
    rw [hpath]
    exact map_toRaw_coerce dp hwf
  have hdm : deflectedMoidOf t p os = approximateMoidKm dp := by
    unfold deflectedMoidOf
    rw [hcomb]
  refine ⟨hfac, ⟨{ baseline_path := some ((baselinePathOf os).map Point3.toRaw)
                   deflected_path := some dp
                   baseline_moid_km := some (baselineMoidOf os)
                   deflected_moid_km := some (max 0 (approximateMoidKm dp))
                   moid_change_km := some (baselineMoidOf os - approximateMoidKm dp) },
               ?_, rfl, rfl, rfl⟩⟩
  show (estimateDeflectionOutcome t p).orbital_solution = _
  unfold estimateDeflectionOutcome
  rw [hos]
  show some (OrbitalSolution.mk _ _ _ _ _) = some (OrbitalSolution.mk _ _ _ _ _)
  rw [hcomb, hdm]

theorem c1_zero_delta_v_witness :
    ((⟨none, none, none,
        some ⟨none, some [some ⟨some 1, some 0, some 0⟩], none, none, none⟩⟩ :
          Scenario).orbital_solution =
      some ⟨none, some [some ⟨some 1, some 0, some 0⟩], none, none, none⟩) ∧
    ([some (⟨some 1, some 0, some 0⟩ : RawPoint)] ≠ ([] : List (Option RawPoint))) ∧
    ((⟨none, none, some 0, none, none⟩ : Payload).deflection_delta_v = some 0) ∧
    (adjustmentFactor
        ⟨none, none, none,
          some ⟨none, some [some ⟨some 1, some 0, some 0⟩], none, none, none⟩⟩
        ⟨none, none, some 0, none, none⟩ = 0 ∧
     ∃ os', (estimateDeflectionOutcome
          ⟨none, none, none,
            some ⟨none, some [some ⟨some 1, some 0, some 0⟩], none, none, none⟩⟩
          ⟨none, none, some 0, none, none⟩).orbital_solution = some os' ∧
        os'.deflected_path = some [some ⟨some 1, some 0, some 0⟩] ∧
        os'.deflected_moid_km =
          some (max 0 (approximateMoidKm [some ⟨some 1, some 0, some 0⟩])) ∧
        os'.baseline_moid_km =
          some (baselineMoidOf
            ⟨none, some [some ⟨some 1, some 0, some 0⟩], none, none, none⟩)) :=
  ⟨rfl, by simp, rfl,
    c1_zero_delta_v _ _ _ _ rfl rfl (by simp)
      (by
        intro q hq
        simp only [List.mem_singleton] at hq
        exact ⟨1, 0, 0, hq⟩) rfl⟩
lemma render_not_effective (s : OrbitalViz.VizState) (c : OrbitalViz.RenderCall)
    (h : ¬ c.effective) :
    OrbitalViz.renderPaths s c.baseline_path c.deflected_path = s := by
  rcases c with ⟨bp, dp⟩
  cases bp with
  | none => rfl
  | some b =>
    cases dp with
    | none => rfl
    | some d => exact absurd ⟨rfl, rfl⟩ h

lemma render_effective_drawn (s : OrbitalViz.VizState) (bp dp : List (Option RawPoint))
    (hne : dp ≠ []) (h : OrbitalViz.drawn s) :
    OrbitalViz.drawn (OrbitalViz.renderPaths s (some bp) (some dp)) := by
  obtain ⟨hb, hd, hm, sb, sd, sm, ab, ad, am⟩ := h
  have hlen : dp.length ≠ 0 := fun hl => hne (List.length_eq_zero.mp hl)
  unfold OrbitalViz.renderPaths OrbitalViz.drawn
  simp only [hb, hd, hm, sb, sd, sm, ab, ad, am, if_pos hlen, if_true]
  norm_num

lemma render_effective_init (bp dp : List (Option RawPoint)) (hne : dp ≠ []) :
    OrbitalViz.drawn
      (OrbitalViz.renderPaths OrbitalViz.initialVizState (some bp) (some dp)) := by
  have hlen : dp.length ≠ 0 := fun hl => hne (List.length_eq_zero.mp hl)
  unfold OrbitalViz.renderPaths OrbitalViz.initialVizState OrbitalViz.drawn
  simp only [if_pos hlen]
  norm_num

lemma runRender_drawn (calls : List OrbitalViz.RenderCall)
    (hcalls : ∀ c ∈ calls, ∀ dp, c.deflected_path = some dp → dp ≠ []) :
    ∀ s : OrbitalViz.VizState, OrbitalViz.drawn s →
      OrbitalViz.drawn (OrbitalViz.runRender s calls) := by
  induction calls with
  | nil => exact fun s h => h
  | cons c rest ih =>
    intro s h
    show OrbitalViz.drawn (OrbitalViz.runRender
      (OrbitalViz.renderPaths s c.baseline_path c.deflected_path) rest)
    by_cases hc : c.effective
    · obtain ⟨hb, hd⟩ := hc
      obtain ⟨bp, hbp⟩ := Option.isSome_iff_exists.mp hb
      obtain ⟨dp, hdp⟩ := Option.isSome_iff_exists.mp hd
      rw [hbp, hdp]
      exact ih (fun c' hc' => hcalls c' (by simp [hc'])) _
        (render_effective_drawn s bp dp (hcalls c (by simp) dp hdp) h)
    · rw [render_not_effective s c hc]
      exact ih (fun c' hc' => hcalls c' (by simp [hc'])) s h

lemma runRender_init_drawn (calls : List OrbitalViz.RenderCall)
    (hcalls : ∀ c ∈ calls, ∀ dp, c.deflected_path = some dp → dp ≠ [])
    (heff : ∃ c ∈ calls, c.effective) :
    OrbitalViz.drawn (OrbitalViz.runRender OrbitalViz.initialVizState calls) := by
  induction calls with
  | nil => obtain ⟨c, hc, _⟩ := heff; cases hc
  | cons c rest ih =>
    show OrbitalViz.drawn (OrbitalViz.runRender
      (OrbitalViz.renderPaths OrbitalViz.initialVizState c.baseline_path c.deflected_path)
      rest)
    by_cases hc : c.effective
    · obtain ⟨hb, hd⟩ := hc
      obtain ⟨bp, hbp⟩ := Option.isSome_iff_exists.mp hb
      obtain ⟨dp, hdp⟩ := Option.isSome_iff_exists.mp hd
      rw [hbp, hdp]
      exact runRender_drawn rest (fun c' hc' => hcalls c' (by simp [hc'])) _
        (render_effective_init bp dp (hcalls c (by simp) dp hdp))
    · rw [render_not_effective _ c hc]
      refine ih (fun c' hc' => hcalls c' (by simp [hc'])) ?_
      obtain ⟨c', hc', he'⟩ := heff
      rcases List.mem_cons.mp hc' with rfl | hmem
      · exact absurd he' hc
      · exact ⟨c', hmem, he'⟩

/-- C8: `renderPaths` is a no-op when either path is absent; otherwise it
disposes the previous orbit lines and marker before adding replacements,
so after any sequence of calls containing at least one effective call —
with non-empty deflected paths, as the data model guarantees for present
paths — the scene holds exactly one baseline orbit line, one deflected
orbit line and at most one marker, and every kind's disposal count equals
its addition count minus one. -/
theorem c8_renderPaths_disposal :
    (∀ (s : OrbitalViz.VizState) (bp : Option (List (Option RawPoint))),
      OrbitalViz.renderPaths s none bp = s ∧ OrbitalViz.renderPaths s bp none = s) ∧
    (∀ calls : List OrbitalViz.RenderCall,
      (∀ c ∈ calls, ∀ dp, c.deflected_path = some dp → dp ≠ []) →
      (∃ c ∈ calls, c.effective) →
      (OrbitalViz.runRender OrbitalViz.initialVizState calls).sceneBaseline = 1 ∧
      (OrbitalViz.runRender OrbitalViz.initialVizState calls).sceneDeflected = 1 ∧
      (OrbitalViz.runRender OrbitalViz.initialVizState calls).sceneMarker ≤ 1 ∧
      (OrbitalViz.runRender OrbitalViz.initialVizState calls).baselineDisposes =
        (OrbitalViz.runRender OrbitalViz.initialVizState calls).baselineAdds - 1 ∧
      (OrbitalViz.runRender OrbitalViz.initialVizState calls).deflectedDisposes =
        (OrbitalViz.runRender OrbitalViz.initialVizState calls).deflectedAdds - 1 ∧
      (OrbitalViz.runRender OrbitalViz.initialVizState calls).markerDisposes =
        (OrbitalViz.runRender OrbitalViz.initialVizState calls).markerAdds - 1) := by
  constructor
  · intro s bp
    constructor
    · cases bp <;> rfl
    · cases bp <;> rfl
  · intro calls hcalls heff
    obtain ⟨_, _, _, sb, sd, sm, ab, ad, am⟩ := runRender_init_drawn calls hcalls heff
    exact ⟨sb, sd, by omega, by omega, by omega, by omega⟩

theorem c8_renderPaths_disposal_witness :
    (∀ c ∈ [OrbitalViz.RenderCall.mk (some []) (some [none])],
      ∀ dp, c.deflected_path = some dp → dp ≠ []) ∧
    (∃ c ∈ [OrbitalViz.RenderCall.mk (some []) (some [none])], c.effective) ∧
    ((OrbitalViz.runRender OrbitalViz.initialVizState
        [OrbitalViz.RenderCall.mk (some []) (some [none])]).sceneBaseline = 1 ∧
     (OrbitalViz.runRender OrbitalViz.initialVizState
        [OrbitalViz.RenderCall.mk (some []) (some [none])]).sceneDeflected = 1 ∧
     (OrbitalViz.runRender OrbitalViz.initialVizState
        [OrbitalViz.RenderCall.mk (some []) (some [none])]).sceneMarker ≤ 1 ∧
     (OrbitalViz.runRender OrbitalViz.initialVizState
        [OrbitalViz.RenderCall.mk (some []) (some [none])]).baselineDisposes =
       (OrbitalViz.runRender OrbitalViz.initialVizState
        [OrbitalViz.RenderCall.mk (some []) (some [none])]).baselineAdds - 1 ∧
     (OrbitalViz.runRender OrbitalViz.initialVizState
        [OrbitalViz.RenderCall.mk (some []) (some [none])]).deflectedDisposes =
       (OrbitalViz.runRender OrbitalViz.initialVizState
        [OrbitalViz.RenderCall.mk (some []) (some [none])]).deflectedAdds - 1 ∧
     (OrbitalViz.runRender OrbitalViz.initialVizState
        [OrbitalViz.RenderCall.mk (some []) (some [none])]).markerDisposes =
       (OrbitalViz.runRender OrbitalViz.initialVizState
        [OrbitalViz.RenderCall.mk (some []) (some [none])]).markerAdds - 1) := by
  have h1 : ∀ c ∈ [OrbitalViz.RenderCall.mk (some []) (some [none])],
      ∀ dp : List (Option RawPoint), c.deflected_path = some dp → dp ≠ [] := by
    intro c hc dp hdp
    simp only [List.mem_singleton] at hc
    subst hc
    simp only [Option.some.injEq] at hdp
    subst hdp
    simp
  have h2 : ∃ c ∈ [OrbitalViz.RenderCall.mk (some []) (some [none])], c.effective :=
    ⟨OrbitalViz.RenderCall.mk (some []) (some [none]), by simp, rfl, rfl⟩
  exact ⟨h1, h2, c8_renderPaths_disposal.2 _ h1 h2⟩
